import Mathlib

/-!
# Launch Readiness Orchestration — verification of the launcher frontend

A shallow embedding of the launcher's launch-readiness logic:

* the compatibility-environment (Wine) readiness flags computed by the
  useWine hook (src/unnamed/part_004);
* the relay probe fan-out, ranking and auto-selection of the server store
  (src/src/stores/serverStore.ts) and the relay dropdown comparator
  (src/src/components/RelayDropdown.tsx);
* the game session connection state handling of useGameConnection
  (src/unnamed/part_004) together with the UI countdown of
  GameConnectionModal (src/src/components/GameConnectionModal.tsx);
* the connect-button gating of ServerItem (src/src/components/ServerItem.tsx).

TypeScript numbers that hold latencies are modelled as Nat, nullable values
as Option, and the fallible backend invocation behind checkStatus as an
Except value.
-/

namespace Launcher

/-- Platform kind, from src/src/types.ts. -/
inductive Platform where
  | windows
  | linux
  | macos
  | unknown
deriving DecidableEq, Repr

/-- WineStatus, from src/src/types.ts. -/
structure WineStatus where
  installed : Bool
  version : Option String
  meets_minimum_version : Bool
  winetricks_installed : Bool
  prefix_initialized : Bool
  webview2_installed : Bool
  error : Option String
deriving DecidableEq, Repr

/-- The initial (all-false) status, from initialWineStatus in
src/unnamed/part_004 lines 73-81. -/
def initialWineStatus : WineStatus :=
  { installed := false
    version := none
    meets_minimum_version := false
    winetricks_installed := false
    prefix_initialized := false
    webview2_installed := false
    error := none }

/-- needsSetup, from src/unnamed/part_004 lines 200-202:
platform is linux and the prefix or the webview2 component is missing. -/
def needsSetup (platform : Platform) (status : WineStatus) : Bool :=
  platform == Platform.linux &&
    (!status.prefix_initialized || !status.webview2_installed)

/-- isReady, from src/unnamed/part_004 lines 205-207:
platform is not linux, or both the prefix and webview2 are ready. -/
def isReady (platform : Platform) (status : WineStatus) : Bool :=
  platform != Platform.linux ||
    (status.prefix_initialized && status.webview2_installed)

/-- checkStatus, from src/unnamed/part_004 lines 95-110. The backend call
check_wine_status either returns a WineStatus or throws; the catch arm
converts the thrown value into a message string, so the outcome is modelled
as an Except. The function is total: every outcome yields a WineStatus. -/
def checkStatus (outcome : Except String WineStatus) : WineStatus :=
  match outcome with
  | Except.ok wineStatus => wineStatus
  | Except.error msg => { initialWineStatus with error := some msg }

/-- canConnect, from src/src/components/ServerItem.tsx line 54. -/
def canConnect (isOnline relaysReady : Bool) : Bool :=
  isOnline && relaysReady

/-- The disabled condition of the Connect button, from
src/src/components/ServerItem.tsx line 83. -/
def connectDisabled (canConn connecting autoConnecting : Bool) : Bool :=
  !canConn || connecting || autoConnecting

/-- Relay, from src/src/types.ts. -/
structure Relay where
  id : String
  name : String
  host : String
deriving DecidableEq, Repr

/-- RelayWithPing, from src/src/types.ts (Relay plus ping and checking;
the extends-clause is flattened). -/
structure RelayWithPing where
  id : String
  name : String
  host : String
  ping : Option Nat
  checking : Bool
deriving DecidableEq, Repr

/-- The sort comparator shared by initRelays
(src/src/stores/serverStore.ts lines 76-81) and RelayDropdown
(src/src/components/RelayDropdown.tsx lines 49-55), as the relation
comparator a b ≤ 0: equal when both pings are null, a after b when only
a.ping is null, a before b when only b.ping is null, else by ping value. -/
def pingLE (a b : RelayWithPing) : Bool :=
  match a.ping, b.ping with
  | none, none => true
  | none, some _ => false
  | some _, none => true
  | some x, some y => decide (x ≤ y)

/-- The in-place stable sort of the probe results
(src/src/stores/serverStore.ts lines 76-81); JavaScript array sort is
stable, modelled by mergeSort. -/
def rankRelays (l : List RelayWithPing) : List RelayWithPing :=
  l.mergeSort pingLE

/-- The Promise.all fan-out of initRelays
(src/src/stores/serverStore.ts lines 69-74): one probe per configured
relay, each producing an entry with the probe outcome as ping and
checking set to false.  The outcome function models pingRelay, whose
failure surfaces as a null latency. -/
def probeAll (cfg : List Relay) (outcome : Relay → Option Nat) :
    List RelayWithPing :=
  cfg.map (fun r =>
    { id := r.id, name := r.name, host := r.host
      ping := outcome r, checking := false })

/-- The relay-related state of the server store
(src/src/stores/serverStore.ts lines 20-21). -/
structure ServerStoreState where
  relays : List RelayWithPing
  selectedRelay : String
deriving DecidableEq, Repr

/-- The initial store state (src/src/stores/serverStore.ts lines 32-33):
every configured relay with null ping and checking true, selection
"direct". -/
def initialServerStore (cfg : List Relay) : ServerStoreState :=
  { relays := cfg.map (fun r =>
      { id := r.id, name := r.name, host := r.host
        ping := none, checking := true })
    selectedRelay := "direct" }

/-- setSelectedRelay, from src/src/stores/serverStore.ts line 35; also the
action a user selection in the dropdown performs. -/
def setSelectedRelay (id : String) (s : ServerStoreState) :
    ServerStoreState :=
  { s with selectedRelay := id }

/-- The completion step of initRelays
(src/src/stores/serverStore.ts lines 76-89): sort the collected results in
place, store them, then auto-select the first ranked relay whose ping is
non-null when one exists. -/
def initRelaysComplete (results : List RelayWithPing)
    (s : ServerStoreState) : ServerStoreState :=
  match (rankRelays results).find? (fun r => r.ping.isSome) with
  | some best => setSelectedRelay best.id { s with relays := rankRelays results }
  | none => { s with relays := rankRelays results }

/-- The whole initRelays action (src/src/stores/serverStore.ts
lines 68-89): fan out one probe per configured relay, then rank, store and
auto-select. -/
def initRelays (cfg : List Relay) (outcome : Relay → Option Nat)
    (s : ServerStoreState) : ServerStoreState :=
  initRelaysComplete (probeAll cfg outcome) s

/-- Modelled from the spec: the relaysReady flag read by ServerItem
(src/src/components/ServerItem.tsx line 25) is defined in a store revision
absent from src/; per the spec, readiness holds once at least one probe
result has a non-null latency and is not probing. -/
def relaysReadyFlag (relays : List RelayWithPing) : Bool :=
  relays.any (fun r => r.ping.isSome && !r.checking)

/-- GameConnectionState, from src/src/components/GameConnectionModal.tsx
line 4. -/
inductive GameConnectionState where
  | idle
  | connecting
  | connected
  | restarting
deriving DecidableEq, Repr

/-- The session state owned by useGameConnection
(src/unnamed/part_004 lines 10-16): the connection state, the connected
server name, and the restart reason. -/
structure Session where
  state : GameConnectionState
  connectedServerName : Option String
  restartReason : Option String
deriving DecidableEq, Repr

/-- The payloads of the four backend lifecycle events consumed by
useGameConnection (src/unnamed/part_004 lines 19-44). -/
inductive GameSignal where
  | connecting (serverName : String)
  | connected (serverName : String)
  | restarting (serverName : String) (reason : Option String)
  | closed
deriving DecidableEq, Repr

/-- The four event listeners of useGameConnection
(src/unnamed/part_004 lines 19-44): each signal sets all three session
fields from its payload. -/
def handleSignal : GameSignal → Session → Session
  | GameSignal.connecting n, _ =>
    { state := GameConnectionState.connecting
      connectedServerName := some n, restartReason := none }
  | GameSignal.connected n, _ =>
    { state := GameConnectionState.connected
      connectedServerName := some n, restartReason := none }
  | GameSignal.restarting n r, _ =>
    { state := GameConnectionState.restarting
      connectedServerName := some n, restartReason := r }
  | GameSignal.closed, _ =>
    { state := GameConnectionState.idle
      connectedServerName := none, restartReason := none }

/-- CONNECTION_TIMEOUT_SECONDS, from
src/src/components/GameConnectionModal.tsx line 6. -/
def CONNECTION_TIMEOUT_SECONDS : Nat := 30

/-- One countdown tick of GameConnectionModal
(src/src/components/GameConnectionModal.tsx line 30): decrement while
positive, stay at zero at expiry. -/
def tickTimer (t : Nat) : Nat :=
  if t > 0 then t - 1 else 0

/-- A message to the combined session-plus-countdown system: either one of
the four backend lifecycle signals, or a countdown interval tick. -/
inductive LauncherMsg where
  | game (sig : GameSignal)
  | tick
deriving DecidableEq, Repr

/-- The combined step of the session listeners and the modal countdown
(src/src/components/GameConnectionModal.tsx lines 26-34): a tick only
decrements the countdown; a game signal updates the session through its
listener, and the countdown restarts at CONNECTION_TIMEOUT_SECONDS
exactly when the session state changes into connecting or restarting (the
React effect re-runs only when the state value changes). -/
def step : LauncherMsg → Session × Nat → Session × Nat
  | LauncherMsg.tick, (s, t) => (s, tickTimer t)
  | LauncherMsg.game sig, (s, t) =>
    let s2 := handleSignal sig s
    (s2,
      if (s2.state = GameConnectionState.connecting ∨
          s2.state = GameConnectionState.restarting) ∧ s2.state ≠ s.state
      then CONNECTION_TIMEOUT_SECONDS else t)

/-- Modelled from the spec: the commands hitting the environment
provisioner.  The backend implementations of the initialize_wine_prefix
and reset_wine_prefix commands invoked by useWine
(src/unnamed/part_004 lines 147-197) are not under src/; the spec requires
a provision or reset call while a run is in flight to be deterministically
rejected, and a terminal progress event (complete or error,
src/unnamed/part_004 lines 131-138) ends the run. -/
inductive ProvisionCmd where
  | provision
  | reset
  | finish
deriving DecidableEq, Repr

/-- Modelled from the spec: the provisioner's concurrency state, counting
the stage sequences currently active. -/
structure ProvisionerState where
  active : Nat
deriving DecidableEq, Repr

/-- Modelled from the spec: one provisioner step.  A provision or reset
call starts a run only when none is active and is otherwise rejected,
leaving the state untouched; finish ends the active run.  The returned
Bool reports whether a new stage sequence started. -/
def provisionStep (c : ProvisionCmd) (s : ProvisionerState) :
    ProvisionerState × Bool :=
  match c with
  | ProvisionCmd.provision =>
    if s.active = 0 then ({ active := 1 }, true) else (s, false)
  | ProvisionCmd.reset =>
    if s.active = 0 then ({ active := 1 }, true) else (s, false)
  | ProvisionCmd.finish => ({ active := 0 }, false)

/-- Modelled from the spec: a whole call sequence against the
provisioner. -/
def provisionRun (cmds : List ProvisionCmd) (s : ProvisionerState) :
    ProvisionerState :=
  cmds.foldl (fun st c => (provisionStep c st).1) s

end Launcher

namespace Launcher

/-- C10: needsSetup and isReady are exact complements for every platform and
every WineStatus: the hook can never report both, nor neither. -/
theorem needsSetup_eq_not_isReady (p : Platform) (st : WineStatus) :
    needsSetup p st = !(isReady p st) := by
  cases st with
  | mk i v m w pre web e => cases p <;> cases pre <;> cases web <;> rfl

/-- C1: the readiness flag computed by useWine is true exactly when the
platform is not linux, or both prefix_initialized and webview2_installed
hold; and the server connect action is enabled only when relays are
ready. -/
theorem launch_gate_correct (p : Platform) (st : WineStatus)
    (isOnline relaysReady connecting autoConnecting : Bool) :
    (isReady p st = true ↔
      (p ≠ Platform.linux ∨
        (st.prefix_initialized = true ∧ st.webview2_installed = true))) ∧
    (connectDisabled (canConnect isOnline relaysReady) connecting
        autoConnecting = false → relaysReady = true) := by
  constructor
  · cases p <;> simp [isReady]
  · intro h
    cases hr : relaysReady with
    | false =>
      rw [hr] at h
      cases isOnline <;> simp [connectDisabled, canConnect] at h
    | true => rfl

/-- Witness for C1 at a concrete input: on linux with both components
installed and relays ready the gate opens, and an enabled connect button
implies relays were ready. -/
theorem launch_gate_correct_witness :
    isReady Platform.linux
      { initialWineStatus with
          prefix_initialized := true, webview2_installed := true } = true ∧
    (connectDisabled (canConnect true true) false false = false →
      (true : Bool) = true) := by
  constructor
  · exact (launch_gate_correct Platform.linux
      { initialWineStatus with
          prefix_initialized := true, webview2_installed := true }
      true true false false).1.mpr (Or.inr ⟨rfl, rfl⟩)
  · exact (launch_gate_correct Platform.linux initialWineStatus
      true true false false).2

/-- C5: the environment status check never propagates an exception: a failed
check_wine_status call yields the all-false status with the failure message
in the error field, and a successful call yields the returned status
unchanged.  Totality (every outcome yields a WineStatus) is the type of
checkStatus. -/
theorem checkStatus_captures_failure (msg : String) (ws : WineStatus) :
    checkStatus (Except.error msg) =
      { installed := false
        version := none
        meets_minimum_version := false
        winetricks_installed := false
        prefix_initialized := false
        webview2_installed := false
        error := some msg } ∧
    checkStatus (Except.ok ws) = ws := by
  exact ⟨rfl, rfl⟩

theorem pingLE_trans (a b c : RelayWithPing) :
    pingLE a b → pingLE b c → pingLE a c := by
  intro hab hbc
  cases ha : a.ping <;> cases hb : b.ping <;> cases hc : c.ping <;>
    simp_all [pingLE] <;> omega

theorem pingLE_total (a b : RelayWithPing) :
    pingLE a b || pingLE b a := by
  cases ha : a.ping <;> cases hb : b.ping <;> simp [pingLE, ha, hb] <;> omega

theorem filter_pingEq_pairwise (l : List RelayWithPing) (v : Option Nat) :
    List.Pairwise (fun a b => pingLE a b = true)
      (l.filter (fun r => r.ping == v)) := by
  apply List.pairwise_of_forall_mem_list
  intro a ha b hb
  have hA : a.ping = v := by
    have := (List.mem_filter.mp ha).2
    simpa using this
  have hB : b.ping = v := by
    have := (List.mem_filter.mp hb).2
    simpa using this
  cases v with
  | none => simp [pingLE, hA, hB]
  | some n => simp [pingLE, hA, hB]

/-- C2: the ranking produced after the fan-out is a permutation of the
probe results, it is non-decreasing in latency with every null-latency
entry after every non-null one (each earlier entry is comparator-below
each later one), and for any fixed latency value, null included, the
entries carrying it keep their original relative order. -/
theorem ranking_sorted_and_stable (l : List RelayWithPing) :
    List.Perm (rankRelays l) l ∧
    List.Pairwise (fun a b => pingLE a b = true) (rankRelays l) ∧
    ∀ v : Option Nat,
      (rankRelays l).filter (fun r => r.ping == v) =
        l.filter (fun r => r.ping == v) := by
  refine ⟨List.mergeSort_perm l pingLE,
    List.sorted_mergeSort pingLE_trans pingLE_total l, ?_⟩
  intro v
  have hsub : (l.filter (fun r => r.ping == v)).Sublist l :=
    List.filter_sublist l
  have hstab : (l.filter (fun r => r.ping == v)).Sublist (rankRelays l) :=
    List.sublist_mergeSort pingLE_trans pingLE_total
      (filter_pingEq_pairwise l v) hsub
  have hidem : ((l.filter (fun r => r.ping == v)).filter
      (fun r => r.ping == v)) = l.filter (fun r => r.ping == v) :=
    List.filter_eq_self.mpr (fun a ha => (List.mem_filter.mp ha).2)
  have h2 : (l.filter (fun r => r.ping == v)).Sublist
      ((rankRelays l).filter (fun r => r.ping == v)) := by
    have h3 := hstab.filter (fun r => r.ping == v)
    rwa [hidem] at h3
  have hperm2 : List.Perm ((rankRelays l).filter (fun r => r.ping == v))
      (l.filter (fun r => r.ping == v)) :=
    (List.mergeSort_perm l pingLE).filter (fun r => r.ping == v)
  exact (h2.eq_of_length hperm2.length_eq.symm).symm

/-- C3 counterexample: the user selects relay "userChoice" before the
fan-out completes; the completing fan-out finds a relay with a non-null
latency and overwrites the selection. -/
theorem sticky_selection_cex :
    (initRelaysComplete
      [{ id := "r1", name := "Relay 1", host := "h1"
         ping := some 10, checking := false }]
      (setSelectedRelay "userChoice"
        (initialServerStore
          [{ id := "r1", name := "Relay 1", host := "h1" }]))).selectedRelay
      ≠ "userChoice" := by
  simp [initRelaysComplete, rankRelays, List.mergeSort_singleton,
    List.find?, setSelectedRelay, initialServerStore]

/-- C3 amended: completion of the fan-out auto-selects the first ranked
relay with a non-null latency whenever one exists, overwriting any prior
user selection; a prior selection survives only when every probe
failed. -/
theorem sticky_selection_amended (s : ServerStoreState)
    (results : List RelayWithPing) :
    ((∀ r ∈ results, r.ping = none) →
      (initRelaysComplete results s).selectedRelay = s.selectedRelay) ∧
    (∀ best, (rankRelays results).find? (fun r => r.ping.isSome) = some best →
      (initRelaysComplete results s).selectedRelay = best.id) := by
  constructor
  · intro h
    have hfind : (rankRelays results).find? (fun r => r.ping.isSome) = none := by
      apply List.find?_eq_none.mpr
      intro x hx
      have hx2 : x ∈ results := by
        have := (List.mergeSort_perm results pingLE).mem_iff.mp hx
        exact this
      simp [h x hx2]
    simp [initRelaysComplete, hfind]
  · intro best hbest
    simp [initRelaysComplete, hbest, setSelectedRelay]

/-- Witness for the amended C3 at concrete inputs: an all-failed fan-out
keeps the prior selection, and a successful probe makes its relay the
selection. -/
theorem sticky_selection_amended_witness :
    (initRelaysComplete
      [{ id := "r1", name := "Relay 1", host := "h1"
         ping := none, checking := false }]
      (setSelectedRelay "userChoice"
        (initialServerStore
          [{ id := "r1", name := "Relay 1", host := "h1" }]))).selectedRelay =
      (setSelectedRelay "userChoice"
        (initialServerStore
          [{ id := "r1", name := "Relay 1", host := "h1" }])).selectedRelay ∧
    (initRelaysComplete
      [{ id := "r1", name := "Relay 1", host := "h1"
         ping := some 10, checking := false }]
      (setSelectedRelay "userChoice"
        (initialServerStore
          [{ id := "r1", name := "Relay 1", host := "h1" }]))).selectedRelay =
      "r1" := by
  constructor
  · exact (sticky_selection_amended _ _).1 (by decide)
  · exact (sticky_selection_amended _
      [{ id := "r1", name := "Relay 1", host := "h1"
         ping := some 10, checking := false }]).2
      { id := "r1", name := "Relay 1", host := "h1"
        ping := some 10, checking := false }
      (by simp [rankRelays, List.mergeSort_singleton, List.find?])

/-- C6: if every probe failed, the completing fan-out leaves the selected
relay unchanged and the relay readiness flag computed over the stored
results is false. -/
theorem all_failed_no_select (s : ServerStoreState)
    (results : List RelayWithPing) (h : ∀ r ∈ results, r.ping = none) :
    (initRelaysComplete results s).selectedRelay = s.selectedRelay ∧
    relaysReadyFlag (initRelaysComplete results s).relays = false := by
  have hfind : (rankRelays results).find? (fun r => r.ping.isSome) = none := by
    apply List.find?_eq_none.mpr
    intro x hx
    have hx2 : x ∈ results :=
      (List.mergeSort_perm results pingLE).mem_iff.mp hx
    simp [h x hx2]
  constructor
  · simp [initRelaysComplete, hfind]
  · simp only [initRelaysComplete, hfind]
    simp only [relaysReadyFlag, List.any_eq_false]
    intro x hx
    have hx2 : x ∈ results :=
      (List.mergeSort_perm results pingLE).mem_iff.mp hx
    simp [h x hx2]

/-- Witness for C6 at a concrete input: one relay, whose probe failed. -/
theorem all_failed_no_select_witness :
    (initRelaysComplete
      [{ id := "r1", name := "Relay 1", host := "h1"
         ping := none, checking := false }]
      (initialServerStore
        [{ id := "r1", name := "Relay 1", host := "h1" }])).selectedRelay =
      (initialServerStore
        [{ id := "r1", name := "Relay 1", host := "h1" }]).selectedRelay ∧
    relaysReadyFlag
      (initRelaysComplete
        [{ id := "r1", name := "Relay 1", host := "h1"
           ping := none, checking := false }]
        (initialServerStore
          [{ id := "r1", name := "Relay 1", host := "h1" }])).relays =
      false :=
  all_failed_no_select _ _ (by decide)

/-- C7: the fan-out always completes with exactly one result entry per
configured relay: the ranked list has the configuration's length, and for
every configured relay the entry with its id, its probe outcome as ping
and checking false is present, whatever each probe's outcome was. -/
theorem fanout_total (cfg : List Relay) (outcome : Relay → Option Nat)
    (s : ServerStoreState) :
    (initRelays cfg outcome s).relays.length = cfg.length ∧
    ∀ r ∈ cfg,
      ({ id := r.id, name := r.name, host := r.host
         ping := outcome r, checking := false } : RelayWithPing)
        ∈ (initRelays cfg outcome s).relays := by
  have hrel : (initRelays cfg outcome s).relays =
      rankRelays (probeAll cfg outcome) := by
    simp only [initRelays, initRelaysComplete]
    cases hfind : (rankRelays (probeAll cfg outcome)).find?
        (fun r => r.ping.isSome) <;> simp [setSelectedRelay]
  constructor
  · rw [hrel]
    simp [rankRelays, probeAll]
  · intro r hr
    rw [hrel]
    have : ({ id := r.id, name := r.name, host := r.host,
              ping := outcome r, checking := false } : RelayWithPing)
        ∈ probeAll cfg outcome := by
      simp only [probeAll, List.mem_map]
      exact ⟨r, hr, rfl⟩
    simpa [rankRelays] using this

/-- Witness for C7 at a concrete input: two relays, the first probe fails,
the second succeeds; both entries are present in the ranking. -/
theorem fanout_total_witness :
    (initRelays
      [{ id := "a", name := "A", host := "ha" },
       { id := "b", name := "B", host := "hb" }]
      (fun r => if r.id = "a" then none else some 5)
      (initialServerStore
        [{ id := "a", name := "A", host := "ha" },
         { id := "b", name := "B", host := "hb" }])).relays.length = 2 ∧
    ({ id := "a", name := "A", host := "ha"
       ping := none, checking := false } : RelayWithPing) ∈
      (initRelays
        [{ id := "a", name := "A", host := "ha" },
         { id := "b", name := "B", host := "hb" }]
        (fun r => if r.id = "a" then none else some 5)
        (initialServerStore
          [{ id := "a", name := "A", host := "ha" },
           { id := "b", name := "B", host := "hb" }])).relays := by
  constructor
  · exact (fanout_total _ _ _).1
  · have h := (fanout_total
      [{ id := "a", name := "A", host := "ha" },
       { id := "b", name := "B", host := "hb" }]
      (fun r => if r.id = "a" then none else some 5)
      (initialServerStore
        [{ id := "a", name := "A", host := "ha" },
         { id := "b", name := "B", host := "hb" }])).2
      { id := "a", name := "A", host := "ha" } (by decide)
    simpa using h

/-- C4: at most one provisioning run is ever active: along any call
sequence from a state with at most one active run there is never more than
one, and a provision or reset call made while a run is in flight is
deterministically rejected without starting anything. -/
theorem provisioning_mutual_exclusion (cmds : List ProvisionCmd)
    (s : ProvisionerState) (h : s.active ≤ 1) :
    (provisionRun cmds s).active ≤ 1 ∧
    ∀ s2 : ProvisionerState, s2.active ≠ 0 →
      provisionStep ProvisionCmd.provision s2 = (s2, false) ∧
      provisionStep ProvisionCmd.reset s2 = (s2, false) := by
  constructor
  · induction cmds generalizing s with
    | nil => simpa [provisionRun] using h
    | cons c rest ih =>
      have hstep : ((provisionStep c s).1).active ≤ 1 := by
        cases c <;> simp [provisionStep] <;> split <;> simp_all
      simpa [provisionRun] using ih ((provisionStep c s).1) hstep
  · intro s2 h2
    constructor <;> simp [provisionStep, h2]

/-- Witness for C4 at a concrete input: two provision calls and a reset in
a row from the idle state leave at most one run active, and both kinds of
call are rejected while a run is in flight. -/
theorem provisioning_mutual_exclusion_witness :
    (provisionRun
      [ProvisionCmd.provision, ProvisionCmd.provision, ProvisionCmd.reset]
      { active := 0 }).active ≤ 1 ∧
    provisionStep ProvisionCmd.provision { active := 1 } =
      ({ active := 1 }, false) ∧
    provisionStep ProvisionCmd.reset { active := 1 } =
      ({ active := 1 }, false) := by
  have h := provisioning_mutual_exclusion
    [ProvisionCmd.provision, ProvisionCmd.provision, ProvisionCmd.reset]
    { active := 0 } (by decide)
  exact ⟨h.1, h.2 { active := 1 } (by decide)⟩

/-- C8: the per-episode countdown is purely a UI device: a tick, including
the one at expiry, never changes the session; a session change only ever
comes from one of the four lifecycle signals, whose effect is exactly the
listener's; and the countdown restarts at 30 on each entry into
connecting or restarting. -/
theorem timeout_pure_ui (s : Session) (t : Nat) (m : LauncherMsg)
    (sig : GameSignal) :
    (step LauncherMsg.tick (s, t)).1 = s ∧
    ((step m (s, t)).1 ≠ s → ∃ g, m = LauncherMsg.game g) ∧
    (step (LauncherMsg.game sig) (s, t)).1 = handleSignal sig s ∧
    (((handleSignal sig s).state = GameConnectionState.connecting ∨
        (handleSignal sig s).state = GameConnectionState.restarting) →
      (handleSignal sig s).state ≠ s.state →
      (step (LauncherMsg.game sig) (s, t)).2 = CONNECTION_TIMEOUT_SECONDS) := by
  refine ⟨rfl, ?_, rfl, ?_⟩
  · intro hne
    cases m with
    | game g => exact ⟨g, rfl⟩
    | tick => exact absurd rfl hne
  · intro h1 h2
    simp only [step]
    rw [if_pos ⟨h1, h2⟩]

/-- Witness for C8 at a concrete input: a tick at expiry leaves the idle
session unchanged, and a connecting signal restarts the countdown at
30. -/
theorem timeout_pure_ui_witness :
    (step LauncherMsg.tick
      ({ state := GameConnectionState.idle
         connectedServerName := none, restartReason := none }, 0)).1 =
      { state := GameConnectionState.idle
        connectedServerName := none, restartReason := none } ∧
    (step (LauncherMsg.game (GameSignal.connecting "ServerX"))
      ({ state := GameConnectionState.idle
         connectedServerName := none, restartReason := none }, 0)).2 =
      CONNECTION_TIMEOUT_SECONDS := by
  refine ⟨(timeout_pure_ui
    { state := GameConnectionState.idle
      connectedServerName := none, restartReason := none } 0
    LauncherMsg.tick (GameSignal.connecting "ServerX")).1, ?_⟩
  exact (timeout_pure_ui
    { state := GameConnectionState.idle
      connectedServerName := none, restartReason := none } 0
    LauncherMsg.tick (GameSignal.connecting "ServerX")).2.2.2
    (Or.inl rfl) (by simp [handleSignal])

/-- C9: session updates are idempotent on duplicate signals: any listener
applied twice with the same payload equals the listener applied once, and
in particular a second connected(X) signal while already Connected(X)
leaves the whole session (state, server name, restart reason)
unchanged. -/
theorem session_idempotent (e : GameSignal) (s : Session) (x : String) :
    handleSignal e (handleSignal e s) = handleSignal e s ∧
    handleSignal (GameSignal.connected x)
      { state := GameConnectionState.connected
        connectedServerName := some x, restartReason := none } =
      { state := GameConnectionState.connected
        connectedServerName := some x, restartReason := none } := by
  constructor
  · cases e <;> rfl
  · rfl

end Launcher
